import Mathlib

/-!
# Verification of the aqgo sensor pipeline

Shallow embedding of the aqgo repository (github.com/jkoelndorfer/aqgo):
the IOT-CO-1000 serial read/parse pipeline (`iotco1000/iotco1000.go`,
`AnalyzeAirQuality`) and the CloudWatch submission loop (`main/main.go`,
`submitMetricsToCloudWatch`; plus the variant `main` appended in the
`iotco1000` source file, whose batch builder is `metricDataInput`).

Conventions of the embedding:
* Go strings are Lean `String`s (all inputs here are ASCII); raw serial
  bytes are `Char`s (a byte value `b` is `Char.ofNat b`).
* `time.Duration` is an `Int` counting nanoseconds; `time.Time` is an
  opaque `Int` timestamp parameter.
* CloudWatch metric values (`float64` in Go) are rationals `ℚ`.  Every
  value the theorems below evaluate is an integer well inside the range
  where `float64` is exact, so the embedding agrees with the Go
  arithmetic on all inputs considered.
* Fallible Go calls return `Option`/explicit outcome types; a Go runtime
  panic (index out of range) is an explicit `panic` outcome, distinct
  from a returned `error`.
-/

namespace Aqgo

/-! ## Go standard-library collaborators used by the parser -/

/-- Accumulate base-10 digits into a `Nat`; `none` if the list is empty or
contains a non-digit.  Embeds the digit loop of `strconv.ParseInt`
(base 10, underscores disallowed since the base is given explicitly). -/
def digitsToNat (l : List Char) : Option Nat :=
  match l with
  | [] => none
  | _ :: _ => l.foldlM (fun acc c =>
      if c.isDigit then some (acc * 10 + (c.toNat - 48)) else none) 0

/-- Embeds `strconv.ParseInt(s, 10, bitSize)`: optional sign, one or more base-10
digits, and a range check against the signed `bitSize`-bit interval.
Returns `none` where Go returns a non-nil error (syntax or range). -/
def goParseInt (s : String) (bitSize : Nat) : Option Int :=
  match s.toList with
  | [] => none
  | c :: rest =>
    let signed : Bool × List Char :=
      if c = '-' then (true, rest)
      else if c = '+' then (false, rest)
      else (false, c :: rest)
    match digitsToNat signed.2 with
    | none => none
    | some n =>
      if signed.1 then
        if n ≤ 2 ^ (bitSize - 1) then some (-(n : Int)) else none
      else
        if n ≤ 2 ^ (bitSize - 1) - 1 then some (n : Int) else none

/-- Embeds `strings.Trim(s, cutset)`: strip the leading and trailing characters
of `s` that occur in `cutset`. -/
def goTrim (s : String) (cutset : List Char) : String :=
  let l := s.toList.dropWhile (· ∈ cutset)
  String.mk ((l.reverse.dropWhile (· ∈ cutset)).reverse)

/-- The cutset the parser trims from the seconds field:
`strings.Trim(secondsUp, " \r\n\x00")`. -/
def secondsCutset : List Char := [' ', '\r', '\n', Char.ofNat 0]

/-- The `time.ParseDuration` unit table, in nanoseconds. -/
def unitNanos : String → Option Nat
  | "ns" => some 1
  | "us" => some 1000
  | "µs" => some 1000
  | "μs" => some 1000
  | "ms" => some 1000000
  | "s" => some 1000000000
  | "m" => some 60000000000
  | "h" => some 3600000000000
  | _ => none

/-- Embeds `time.leadingInt`: consume leading digits into a `uint64`,
erroring (`none`) on overflow past `2^63`. -/
def leadingInt : Nat → List Char → Option (Nat × List Char)
  | x, [] => some (x, [])
  | x, c :: rest =>
    if c.isDigit then
      if x > 2 ^ 63 / 10 then none
      else
        let y := x * 10 + (c.toNat - 48)
        if y > 2 ^ 63 then none
        else leadingInt y rest
    else some (x, c :: rest)

/-- Embeds `time.leadingFraction`: consume the digits after a decimal point,
accumulating value and scale, silently stopping accumulation on overflow
while still consuming digits.  (Go tracks `scale` as a `float64`; the
rational here is exact, and no theorem below exercises a fractional
duration.) -/
def leadingFraction : Nat → ℚ → Bool → List Char → Nat × ℚ × List Char
  | x, scale, _, [] => (x, scale, [])
  | x, scale, overflow, c :: rest =>
    if c.isDigit then
      if overflow then leadingFraction x scale true rest
      else if x > (2 ^ 63 - 1) / 10 then leadingFraction x scale true rest
      else
        let y := x * 10 + (c.toNat - 48)
        if y > 2 ^ 63 then leadingFraction x scale true rest
        else leadingFraction y (scale * 10) false rest
    else (x, scale, c :: rest)

/-- One pass of `time.ParseDuration`'s main loop: repeatedly consume
`[0-9]*(\.[0-9]*)?unit`, accumulating nanoseconds in `d`, with Go's
overflow checks.  `fuel` bounds the iterations; each iteration consumes
at least the one-character unit, so `s.length + 1` fuel always suffices.
Returns `none` where Go returns an error. -/
def parseDurationLoop : Nat → Nat → List Char → Option Nat
  | 0, _, _ => none
  | _ + 1, d, [] => some d
  | fuel + 1, d, s@(c₀ :: _) =>
    if ¬(c₀ = '.' ∨ c₀.isDigit) then none
    else
      match leadingInt 0 s with
      | none => none
      | some (v, s₁) =>
        let pre : Bool := s₁.length ≠ s.length
        let fps : Nat × ℚ × List Char × Bool :=
          match s₁ with
          | '.' :: s₁x =>
            let fr := leadingFraction 0 1 false s₁x
            (fr.1, fr.2.1, fr.2.2, decide (fr.2.2.length ≠ s₁x.length))
          | _ => (0, 1, s₁, false)
        let f := fps.1
        let scale := fps.2.1
        let s₂ := fps.2.2.1
        let post := fps.2.2.2
        if pre = false ∧ post = false then none
        else
          let uSplit := s₂.span (fun c => ¬(c = '.' ∨ c.isDigit))
          if uSplit.1 = [] then none
          else
            match unitNanos (String.mk uSplit.1) with
            | none => none
            | some unit =>
              if v > 2 ^ 63 / unit then none
              else
                let v₁ := v * unit
                let v₂ :=
                  if f > 0 then
                    v₁ + (((f : ℚ) * ((unit : ℚ) / scale)).floor).toNat
                  else v₁
                if f > 0 ∧ v₂ > 2 ^ 63 then none
                else
                  let d₁ := d + v₂
                  if d₁ > 2 ^ 63 then none
                  else parseDurationLoop fuel d₁ uSplit.2

/-- Embeds `time.ParseDuration`: optional sign, the special case `"0"`, then the
main loop; the result is a `time.Duration` in nanoseconds. -/
def parseDuration (s : String) : Option Int :=
  let l := s.toList
  let signed : Bool × List Char :=
    match l with
    | [] => (false, l)
    | c :: rest =>
      if c = '-' then (true, rest)
      else if c = '+' then (false, rest)
      else (false, l)
  if signed.2 = ['0'] then some 0
  else if signed.2 = [] then none
  else
    match parseDurationLoop (signed.2.length + 1) 0 signed.2 with
    | none => none
    | some d =>
      if signed.1 then some (-(d : Int))
      else if d > 2 ^ 63 - 1 then none
      else some (d : Int)

/-! ## The measurement and the parsing stage of `AnalyzeAirQuality` -/

/-- The `iotco1000.AirQualityMeasurement` struct. -/
structure AirQualityMeasurement where
  SensorSerialNumber : String
  COConcentrationPPB : Int
  TemperatureC : Int
  RelativeHumidity : Int
  Uptime : Int
  MeasurementTime : Int
deriving DecidableEq, Repr

/-- Outcome of the parsing stage: a measurement, a returned `error`
(with its message), or a Go runtime panic (index out of range). -/
inductive ParseOutcome where
  | ok : AirQualityMeasurement → ParseOutcome
  | err : String → ParseOutcome
  | panic : ParseOutcome
deriving DecidableEq, Repr

/-- Whether `sep` occurs at the head of `l` (byte-for-byte comparison). -/
def matchesAt : List Char → List Char → Bool
  | [], _ => true
  | _ :: _, [] => false
  | s :: ss, c :: cs => s = c && matchesAt ss cs

/-- Split off the text before the first occurrence of `sep` in `l`,
together with the text after that occurrence; `none` when `sep` does not
occur. -/
def splitFirst (sep : List Char) : List Char → Option (List Char × List Char)
  | [] => none
  | c :: rest =>
    if matchesAt sep (c :: rest) then some ([], (c :: rest).drop sep.length)
    else
      match splitFirst sep rest with
      | none => none
      | some (pre, post) => some (c :: pre, post)

/-- Embeds `strings.Split` for a non-empty separator: split around every
non-overlapping occurrence of `sep`, keeping empty fields.  `fuel` bounds
the recursion; each step consumes at least the separator, so
`l.length + 1` always suffices. -/
def splitAll (sep : List Char) : Nat → List Char → List (List Char)
  | 0, l => [l]
  | fuel + 1, l =>
    match splitFirst sep l with
    | none => [l]
    | some (pre, post) => pre :: splitAll sep fuel post

/-- Embeds `strings.Split(string(byteBuffer), ", ")`. -/
def lineFields (raw : String) : List String :=
  (splitAll [',', ' '] (raw.toList.length + 1) raw.toList).map String.mk

/-- The parsing stage of `AnalyzeAirQuality` (iotco1000.go lines 82-119):
split on `", "`, take fields 0-3 and 7-10, integer-parse CO (32-bit),
temperature (8-bit), humidity (8-bit), days (16-bit), hours (8-bit),
compose `"%dh%sm%ss"` from `days*24+hours`, the minutes text, and the
trimmed seconds text, and parse it as a duration.  Accessing `d[10]` on a
split with fewer than 11 fields is a Go index-out-of-range panic. -/
def parseLine (raw : String) (measurementTime : Int) : ParseOutcome :=
  let d := lineFields raw
  if d.length < 11 then ParseOutcome.panic
  else
    match goParseInt (d.getD 1 "") 32 with
    | none =>
      ParseOutcome.err ("failed converting CO concentration (" ++ d.getD 1 "" ++ ") to int")
    | some COInt =>
      match goParseInt (d.getD 2 "") 8 with
      | none =>
        ParseOutcome.err ("failed converting temperature (" ++ d.getD 2 "" ++ ") to int")
      | some temperatureCInt =>
        match goParseInt (d.getD 3 "") 8 with
        | none =>
          ParseOutcome.err ("failed converting relative humidity (" ++ d.getD 3 "" ++ ") to int")
        | some relativeHumidityInt =>
          match goParseInt (d.getD 7 "") 16 with
          | none =>
            ParseOutcome.err ("failed converting days up (" ++ d.getD 7 "" ++ ") to int")
          | some daysUpInt =>
            match goParseInt (d.getD 8 "") 8 with
            | none =>
              ParseOutcome.err ("failed converting hours up (" ++ d.getD 8 "" ++ ") to int")
            | some hoursUpInt =>
              let uptimeDurationStr :=
                toString (daysUpInt * 24 + hoursUpInt) ++ "h" ++ d.getD 9 "" ++ "m" ++
                  goTrim (d.getD 10 "") secondsCutset ++ "s"
              match parseDuration uptimeDurationStr with
              | none =>
                ParseOutcome.err ("failed parsing duration string " ++ uptimeDurationStr)
              | some uptime =>
                ParseOutcome.ok
                  { SensorSerialNumber := d.getD 0 ""
                    COConcentrationPPB := COInt
                    TemperatureC := temperatureCInt
                    RelativeHumidity := relativeHumidityInt
                    Uptime := uptime
                    MeasurementTime := measurementTime }

/-! ## The frame-reading loop of `AnalyzeAirQuality` -/

/-- One `SerialPort.Read(byteBuffer)` call, as scheduled by the
environment: the bytes delivered (written from offset 0 of the caller's
buffer, per `io.Reader`) and the error returned, if any.  The `io.Reader`
contract bounds the chunk by the buffer size (256). -/
structure ReadEvent where
  chunk : List Char
  err : Option String
deriving DecidableEq, Repr

/-- Outcome of the read loop: a terminated buffer, a propagated read
error, a Go index-out-of-range panic, or the loop still blocked waiting
for more reads when the schedule runs out. -/
inductive ReadOutcome where
  | done : List Char → ReadOutcome
  | ioError : String → ReadOutcome
  | panic : ReadOutcome
  | starved : ReadOutcome
deriving DecidableEq, Repr

/-- A `Read` into `byteBuffer` overwrites the buffer from offset 0. -/
def writeChunk (buf chunk : List Char) : List Char :=
  chunk ++ buf.drop chunk.length

/-- The read loop of `AnalyzeAirQuality` (iotco1000.go lines 65-81):
accumulate `totalBytesRead`, propagate the first read error, and break
once `byteBuffer[totalBytesRead-1]` is `'\n'` — an access that is a Go
panic when `totalBytesRead` exceeds the buffer length. -/
def readLoopAux : List Char → Nat → List ReadEvent → ReadOutcome
  | _, _, [] => ReadOutcome.starved
  | buf, total, e :: rest =>
    let buf₁ := writeChunk buf e.chunk
    let total₁ := total + e.chunk.length
    match e.err with
    | some msg => ReadOutcome.ioError msg
    | none =>
      if total₁ = 0 then readLoopAux buf₁ total₁ rest
      else if h : total₁ - 1 < buf₁.length then
        if buf₁.get ⟨total₁ - 1, h⟩ = '\n' then ReadOutcome.done buf₁
        else readLoopAux buf₁ total₁ rest
      else ReadOutcome.panic

/-- The 256-byte zeroed read buffer: `byteBuffer := make([]byte, 256)`. -/
def initialBuffer : List Char := List.replicate 256 (Char.ofNat 0)

/-- Run the read loop from the fresh buffer over a schedule of reads. -/
def readLoop (sched : List ReadEvent) : ReadOutcome :=
  readLoopAux initialBuffer 0 sched

/-- A read schedule delivering a 300-byte device response that exceeds
the 256-byte buffer: a full 256-byte chunk with no terminator, then the
remaining 44 bytes ending in the newline terminator. -/
def overflowSchedule : List ReadEvent :=
  [⟨List.replicate 256 'A', none⟩,
   ⟨List.replicate 43 'B' ++ [Char.ofNat 10], none⟩]

/-- The result of `SerialPort.Write([]byte("\r\n"))`: bytes written and
error, as reported by the serial collaborator. -/
structure WriteResult where
  bytesWritten : Nat
  err : Option String
deriving DecidableEq, Repr

/-- Outcome of a full `AnalyzeAirQuality` call. -/
inductive AnalyzeOutcome where
  | ok : AirQualityMeasurement → AnalyzeOutcome
  | err : String → AnalyzeOutcome
  | panic : AnalyzeOutcome
  | hang : AnalyzeOutcome
deriving DecidableEq, Repr

/-- Embeds `AnalyzeAirQuality` (iotco1000.go lines 54-120) as a function of the
write result, the schedule of serial reads, and the captured measurement
time: propagate a write error; error on a zero-byte write before any
read; otherwise run the read loop and parse the returned buffer. -/
def AnalyzeAirQuality (w : WriteResult) (sched : List ReadEvent)
    (measurementTime : Int) : AnalyzeOutcome :=
  match w.err with
  | some msg => AnalyzeOutcome.err msg
  | none =>
    if w.bytesWritten = 0 then
      AnalyzeOutcome.err "failed to write to IOTCO1000 serial device"
    else
      match readLoop sched with
      | ReadOutcome.done buf =>
        match parseLine (String.mk buf) measurementTime with
        | ParseOutcome.ok m => AnalyzeOutcome.ok m
        | ParseOutcome.err msg => AnalyzeOutcome.err msg
        | ParseOutcome.panic => AnalyzeOutcome.panic
      | ReadOutcome.ioError msg => AnalyzeOutcome.err msg
      | ReadOutcome.panic => AnalyzeOutcome.panic
      | ReadOutcome.starved => AnalyzeOutcome.hang

/-! ## Classification and metric batches -/

/-- The warm-up threshold `warmUpDuration := time.Hour * 2`, in nanoseconds. -/
def warmUpDuration : Int := 2 * 3600000000000

/-- Warm-up classification. -/
inductive Classification where
  | WarmedUp : Classification
  | NotWarmedUp : Classification
deriving DecidableEq, Repr

/-- The classification decision of `submitMetricsToCloudWatch` (both
variants): `aq.Uptime < warmUpDuration` takes the not-warmed-up branch,
otherwise the warmed-up branch. -/
def classify (aq : AirQualityMeasurement) : Classification :=
  if aq.Uptime < warmUpDuration then Classification.NotWarmedUp
  else Classification.WarmedUp

/-- A CloudWatch dimension (`cwtypes.Dimension`). -/
structure Dimension where
  Name : String
  Value : String
deriving DecidableEq, Repr

/-- A CloudWatch metric datum (`cwtypes.MetricDatum`); the unit is the
`StandardUnit` name. -/
structure MetricDatum where
  MetricName : String
  Value : ℚ
  Dimensions : List Dimension
  Unit : String
  StorageResolution : Int
deriving DecidableEq, Repr

/-- The `cloudwatch.PutMetricDataInput` struct. -/
structure PutMetricDataInput where
  Namespace : String
  MetricData : List MetricDatum
deriving DecidableEq, Repr

def CO_CONCENTRATION_PPB : String := "COConcentrationPPB"
def TEMPERATURE_C : String := "TemperatureC"
def RELATIVE_HUMIDITY : String := "RelativeHumidity"
def UPTIME : String := "Uptime"
def SENSOR_SERIAL_NUMBER : String := "SensorSerialNumber"
def SENSOR_ID : String := "SensorID"
def SENSOR_WARMED_UP : String := "SensorWarmedUp"

/-- Embeds `time.Duration.Seconds()`: truncating division of the nanosecond
count, `float64(sec) + float64(nsec)/1e9`, exact here in `ℚ`. -/
def durationSeconds (d : Int) : ℚ :=
  ((d.tdiv 1000000000 : Int) : ℚ) + ((d.tmod 1000000000 : Int) : ℚ) / 1000000000

/-- Look up the value of the metric named `name` in a batch. -/
def metricValue (b : PutMetricDataInput) (name : String) : Option ℚ :=
  (b.MetricData.find? (fun d => d.MetricName = name)).map (·.Value)

/-- The metric names of a batch, in order. -/
def metricNames (b : PutMetricDataInput) : List String :=
  b.MetricData.map (·.MetricName)

/-- The batch built by the canonical `submitMetricsToCloudWatch`
(main/main.go lines 76-119) on its warmed-up path: CO (floored at 0),
temperature, humidity, and uptime in seconds, each dimensioned by
`SensorSerialNumber` = the sensor's serial number, at storage
resolution 1. -/
def canonicalBatch (ns : String) (aq : AirQualityMeasurement) : PutMetricDataInput :=
  let dimensions : List Dimension := [⟨SENSOR_SERIAL_NUMBER, aq.SensorSerialNumber⟩]
  let coPPB₀ : ℚ := (aq.COConcentrationPPB : ℚ)
  let coPPB : ℚ := if coPPB₀ < 0 then 0 else coPPB₀
  { Namespace := ns
    MetricData :=
      [ ⟨CO_CONCENTRATION_PPB, coPPB, dimensions, "None", 1⟩,
        ⟨TEMPERATURE_C, (aq.TemperatureC : ℚ), dimensions, "None", 1⟩,
        ⟨RELATIVE_HUMIDITY, (aq.RelativeHumidity : ℚ), dimensions, "None", 1⟩,
        ⟨UPTIME, durationSeconds aq.Uptime, dimensions, "Seconds", 1⟩ ] }

/-- One iteration of the canonical `submitMetricsToCloudWatch` loop
(main/main.go lines 66-124) on one received measurement: given the
`loggedAboutUptime` flag, return the new flag, the number of log lines
emitted, and the batch submitted (none on the not-warmed-up path, which
`continue`s without submitting). -/
def submitStep (ns : String) (loggedAboutUptime : Bool)
    (aq : AirQualityMeasurement) : Bool × Nat × Option PutMetricDataInput :=
  if aq.Uptime < warmUpDuration then
    (true, if loggedAboutUptime then 0 else 1, none)
  else
    (loggedAboutUptime, 0, some (canonicalBatch ns aq))

/-- Total log lines emitted by the canonical submission loop while
consuming a list of measurements in order, starting from a given
`loggedAboutUptime` flag. -/
def submitRunCount (ns : String) : Bool → List AirQualityMeasurement → Nat
  | _, [] => 0
  | st, aq :: rest =>
    (submitStep ns st aq).2.1 + submitRunCount ns (submitStep ns st aq).1 rest

/-- The `loggedAboutUptime` flag left by the canonical submission loop
after consuming a list of measurements in order. -/
def submitRunState (ns : String) : Bool → List AirQualityMeasurement → Bool
  | st, [] => st
  | st, aq :: rest => submitRunState ns (submitStep ns st aq).1 rest

/-- The variant batch builder `metricDataInput` (appended `main` in the
iotco1000 source, lines 214-293): dimension name `SensorID` with the
serial number as value; when warmed up, CO (floored at 0), temperature,
humidity, uptime, and a `SensorWarmedUp` indicator of 1; when not warmed
up, only uptime and a `SensorWarmedUp` indicator of 0. -/
def metricDataInput (sensorWarmedUp : Bool) (ns : String)
    (aq : AirQualityMeasurement) : PutMetricDataInput :=
  let dimensions : List Dimension := [⟨SENSOR_ID, aq.SensorSerialNumber⟩]
  if sensorWarmedUp then
    let warmedUp : ℚ := 1
    let coPPB₀ : ℚ := (aq.COConcentrationPPB : ℚ)
    let coPPB : ℚ := if coPPB₀ < 0 then 0 else coPPB₀
    { Namespace := ns
      MetricData :=
        [ ⟨CO_CONCENTRATION_PPB, coPPB, dimensions, "None", 1⟩,
          ⟨TEMPERATURE_C, (aq.TemperatureC : ℚ), dimensions, "None", 1⟩,
          ⟨RELATIVE_HUMIDITY, (aq.RelativeHumidity : ℚ), dimensions, "None", 1⟩,
          ⟨UPTIME, durationSeconds aq.Uptime, dimensions, "Seconds", 1⟩,
          ⟨SENSOR_WARMED_UP, warmedUp, dimensions, "None", 1⟩ ] }
  else
    let warmedUp : ℚ := 0
    { Namespace := ns
      MetricData :=
        [ ⟨UPTIME, durationSeconds aq.Uptime, dimensions, "Seconds", 1⟩,
          ⟨SENSOR_WARMED_UP, warmedUp, dimensions, "None", 1⟩ ] }

/-! ## The handoff channel -/

/-- Capacity of the handoff channel created in `main`:
`make(chan *iotco1000.AirQualityMeasurement)` passes no buffer size, so
the channel is unbuffered. -/
def mainChannelCapacity : Nat := 0

/-- Go channel-send semantics (runtime model): a send completes
immediately iff a receiver is currently blocked on the channel, or the
number of buffered values is below the channel's capacity; otherwise the
sender blocks until a receiver takes the value. -/
def chanSendCompletesImmediately (capacity buffered : Nat)
    (receiverWaiting : Bool) : Bool :=
  receiverWaiting || decide (buffered < capacity)

/-! ## Theorems -/

/-- C1: the claim says a raw line splitting into fewer than 11 fields
makes the parsing stage of `AnalyzeAirQuality` return a typed,
field-named parse error and never an index-out-of-range fault.  The code
does the opposite: on the 1-field line `"ABC123\n"` the destructuring of
`d[0] .. d[10]` indexes past the end of the split slice, a Go
index-out-of-range panic, not a returned error. -/
theorem c1_short_line_is_unchecked_panic :
    (lineFields "ABC123\n").length < 11 ∧
    parseLine "ABC123\n" 0 = ParseOutcome.panic := by
  decide

/-- C2 counterexample: the claim says a NotWarmedUp measurement leads to
a submitted batch containing only the uptime metric.  For the measurement
with uptime 0 the canonical submission loop submits no batch at all
(`continue`), and the variant batch builder emits a `SensorWarmedUp`
indicator next to the uptime metric, so its batch is not only uptime. -/
theorem c2_notwarm_counterexample :
    (submitStep "aq" false ⟨"ABC123", -5, 21, 40, 0, 0⟩).2.2 = none ∧
    metricNames (metricDataInput false "aq" ⟨"ABC123", -5, 21, 40, 0, 0⟩) ≠
      [UPTIME] := by
  constructor
  · simp [submitStep, warmUpDuration]
  · simp [metricDataInput, metricNames, UPTIME, SENSOR_WARMED_UP]

/-- C2 (amended): for every measurement classified NotWarmedUp, the
canonical submission loop submits no batch at all, while the variant
`metricDataInput` builds a batch of exactly the uptime-in-seconds metric
followed by a `SensorWarmedUp` indicator of value 0, each carrying the
single dimension named `SensorID` whose value is the sensor serial
number; no CO, temperature, or humidity metric is emitted. -/
theorem c2_notwarm_uptime_and_indicator_only (ns : String) (st : Bool)
    (aq : AirQualityMeasurement)
    (h : classify aq = Classification.NotWarmedUp) :
    (submitStep ns st aq).2.2 = none ∧
    metricNames (metricDataInput false ns aq) = [UPTIME, SENSOR_WARMED_UP] ∧
    metricValue (metricDataInput false ns aq) UPTIME =
      some (durationSeconds aq.Uptime) ∧
    metricValue (metricDataInput false ns aq) SENSOR_WARMED_UP = some 0 ∧
    ∀ d ∈ (metricDataInput false ns aq).MetricData,
      d.Dimensions = [⟨SENSOR_ID, aq.SensorSerialNumber⟩] := by
  have hu : aq.Uptime < warmUpDuration := by
    by_contra hc
    simp [classify, hc] at h
  refine ⟨by simp [submitStep, hu], ?_, ?_, ?_, ?_⟩ <;>
    simp [metricDataInput, metricNames, metricValue, List.find?,
      UPTIME, SENSOR_WARMED_UP]

/-- C2 witness: the amended claim instantiated at a measurement with
uptime 0 (NotWarmedUp). -/
theorem c2_notwarm_uptime_and_indicator_only_witness :
    (submitStep "aq" true ⟨"ABC123", -5, 21, 40, 0, 0⟩).2.2 = none ∧
    metricNames (metricDataInput false "aq" ⟨"ABC123", -5, 21, 40, 0, 0⟩) =
      [UPTIME, SENSOR_WARMED_UP] ∧
    metricValue (metricDataInput false "aq" ⟨"ABC123", -5, 21, 40, 0, 0⟩)
      UPTIME = some (durationSeconds
        (⟨"ABC123", -5, 21, 40, 0, 0⟩ : AirQualityMeasurement).Uptime) ∧
    metricValue (metricDataInput false "aq" ⟨"ABC123", -5, 21, 40, 0, 0⟩)
      SENSOR_WARMED_UP = some 0 ∧
    ∀ d ∈ (metricDataInput false "aq"
        ⟨"ABC123", -5, 21, 40, 0, 0⟩).MetricData,
      d.Dimensions = [⟨SENSOR_ID,
        (⟨"ABC123", -5, 21, 40, 0, 0⟩ :
          AirQualityMeasurement).SensorSerialNumber⟩] :=
  c2_notwarm_uptime_and_indicator_only "aq" true
    ⟨"ABC123", -5, 21, 40, 0, 0⟩ (by decide)

/-- C3 counterexample: the claim says the handoff channel is unbounded
and a send always completes without blocking.  In the code the channel is
created with `make(chan *iotco1000.AirQualityMeasurement)` — capacity 0 —
so a send while the submission loop is busy (no receiver waiting, nothing
buffered below capacity) blocks. -/
theorem c3_unbuffered_counterexample :
    mainChannelCapacity = 0 ∧
    chanSendCompletesImmediately mainChannelCapacity 0 false = false := by
  decide

/-- C3 (amended): the handoff channel is unbuffered (capacity 0), so a
send from the acquisition loop completes immediately exactly when the
submission loop is already waiting to receive; whenever the submission
loop is busy submitting, acquisition blocks on the send. -/
theorem c3_send_completes_iff_receiver_waiting (buffered : Nat)
    (receiverWaiting : Bool) :
    chanSendCompletesImmediately mainChannelCapacity buffered receiverWaiting =
      receiverWaiting := by
  simp [chanSendCompletesImmediately, mainChannelCapacity]

/-- C4: classification is strictly determined by the measurement's uptime
against the fixed 2-hour threshold: uptime strictly below the threshold
classifies NotWarmedUp, uptime at or above it (including exactly at it)
classifies WarmedUp, and any two measurements with the same uptime
classify identically. -/
theorem c4_classify_strictly_by_uptime (aq : AirQualityMeasurement) :
    (classify aq = Classification.NotWarmedUp ↔ aq.Uptime < warmUpDuration) ∧
    (classify aq = Classification.WarmedUp ↔ warmUpDuration ≤ aq.Uptime) ∧
    (∀ aq' : AirQualityMeasurement, aq'.Uptime = aq.Uptime →
      classify aq' = classify aq) := by
  refine ⟨?_, ?_, ?_⟩
  · by_cases h : aq.Uptime < warmUpDuration <;> simp [classify, h]
  · by_cases h : aq.Uptime < warmUpDuration
    · simp [classify, h, not_le.mpr h]
    · simp [classify, h, le_of_not_lt h]
  · intro aq' he
    simp [classify, he]

/-- C4 witness: a measurement whose uptime is exactly the 2-hour
threshold classifies WarmedUp. -/
theorem c4_classify_strictly_by_uptime_witness :
    classify ⟨"ABC123", 0, 0, 0, warmUpDuration, 0⟩ = Classification.WarmedUp :=
  ((c4_classify_strictly_by_uptime ⟨"ABC123", 0, 0, 0, warmUpDuration, 0⟩).2.1).mpr
    (by decide)

/-- C5: on the warmed-up path, a measurement with a negative CO
concentration yields a batch whose CO metric value is floored to 0, while
the measurement's `COConcentrationPPB` field (consulted for the batch)
still holds the raw negative value. -/
theorem c5_negative_co_clamped (ns : String) (aq : AirQualityMeasurement)
    (_hw : classify aq = Classification.WarmedUp)
    (hneg : aq.COConcentrationPPB < 0) :
    metricValue (canonicalBatch ns aq) CO_CONCENTRATION_PPB = some 0 ∧
    ((aq.COConcentrationPPB : ℚ) < 0) := by
  have hq : ((aq.COConcentrationPPB : ℚ)) < 0 := by exact_mod_cast hneg
  refine ⟨?_, hq⟩
  simp [metricValue, canonicalBatch, List.find?, CO_CONCENTRATION_PPB, hq]

/-- C5 witness: the claim instantiated at a warmed-up measurement whose
raw CO concentration is -5 ppb. -/
theorem c5_negative_co_clamped_witness :
    metricValue (canonicalBatch "aq" ⟨"ABC123", -5, 21, 40, warmUpDuration, 0⟩)
      CO_CONCENTRATION_PPB = some 0 ∧
    (((⟨"ABC123", -5, 21, 40, warmUpDuration, 0⟩ :
        AirQualityMeasurement).COConcentrationPPB : ℚ) < 0) :=
  c5_negative_co_clamped "aq" ⟨"ABC123", -5, 21, 40, warmUpDuration, 0⟩
    (by decide) (by decide)

/-- C6: on the 11-field line with serial ABC123, CO -5, temperature 21,
humidity 40, days 1, hours 0, minutes 30, seconds 15: the seconds field
is trimmed of its trailing newline, the composed duration string
`"24h30m15s"` (days*24+hours, minutes and seconds as text) parses to
88215 seconds of uptime, the parse yields exactly that measurement,
classification is WarmedUp, and the canonical batch carries CO clamped
to 0, temperature 21, humidity 40, and uptime 88215 seconds, each with
the single dimension `SensorSerialNumber = "ABC123"`. -/
theorem c6_pipeline_on_example_line :
    goTrim "15\n" secondsCutset = "15" ∧
    parseDuration "24h30m15s" = some 88215000000000 ∧
    parseLine "ABC123, -5, 21, 40, x, x, x, 1, 0, 30, 15\n" 0 =
      ParseOutcome.ok ⟨"ABC123", -5, 21, 40, 88215000000000, 0⟩ ∧
    classify ⟨"ABC123", -5, 21, 40, 88215000000000, 0⟩ =
      Classification.WarmedUp ∧
    metricValue (canonicalBatch "aq" ⟨"ABC123", -5, 21, 40, 88215000000000, 0⟩)
      CO_CONCENTRATION_PPB = some 0 ∧
    metricValue (canonicalBatch "aq" ⟨"ABC123", -5, 21, 40, 88215000000000, 0⟩)
      TEMPERATURE_C = some 21 ∧
    metricValue (canonicalBatch "aq" ⟨"ABC123", -5, 21, 40, 88215000000000, 0⟩)
      RELATIVE_HUMIDITY = some 40 ∧
    metricValue (canonicalBatch "aq" ⟨"ABC123", -5, 21, 40, 88215000000000, 0⟩)
      UPTIME = some 88215 ∧
    ∀ d ∈ (canonicalBatch "aq"
        ⟨"ABC123", -5, 21, 40, 88215000000000, 0⟩).MetricData,
      d.Dimensions = [⟨SENSOR_SERIAL_NUMBER, "ABC123"⟩] := by
  refine ⟨by decide, by decide, by decide, by decide, ?_, ?_, ?_, ?_, ?_⟩ <;>
    simp [metricValue, canonicalBatch, durationSeconds, CO_CONCENTRATION_PPB,
      TEMPERATURE_C, RELATIVE_HUMIDITY, UPTIME, List.find?,
      show Int.tdiv 88215000000000 1000000000 = 88215 from by decide,
      show Int.tmod 88215000000000 1000000000 = 0 from by decide]

/-- C7: whenever the parsing stage returns a measurement, every field of
that measurement comes from a successful parse of its own input field —
the serial number is field 0, the CO/temperature/humidity values are the
successful integer parses of fields 1-3, the uptime is the successfully
parsed composed duration of fields 7-10, and the measurement time is the
captured timestamp.  A failed parse never yields a measurement (by the
outcome type), so no partially populated or zero-defaulted measurement
escapes. -/
theorem c7_measurement_fields_all_from_parse (raw : String) (mt : Int)
    (m : AirQualityMeasurement) (h : parseLine raw mt = ParseOutcome.ok m) :
    11 ≤ (lineFields raw).length ∧
    m.SensorSerialNumber = (lineFields raw).getD 0 "" ∧
    goParseInt ((lineFields raw).getD 1 "") 32 = some m.COConcentrationPPB ∧
    goParseInt ((lineFields raw).getD 2 "") 8 = some m.TemperatureC ∧
    goParseInt ((lineFields raw).getD 3 "") 8 = some m.RelativeHumidity ∧
    (∃ days hours : Int,
      goParseInt ((lineFields raw).getD 7 "") 16 = some days ∧
      goParseInt ((lineFields raw).getD 8 "") 8 = some hours ∧
      parseDuration (toString (days * 24 + hours) ++ "h" ++
          (lineFields raw).getD 9 "" ++ "m" ++
          goTrim ((lineFields raw).getD 10 "") secondsCutset ++ "s") =
        some m.Uptime) ∧
    m.MeasurementTime = mt := by
  simp only [parseLine] at h
  split at h
  · simp at h
  rename_i hlen
  split at h
  · simp at h
  rename_i COInt hCO
  split at h
  · simp at h
  rename_i tInt hT
  split at h
  · simp at h
  rename_i rhInt hRH
  split at h
  · simp at h
  rename_i dInt hD
  split at h
  · simp at h
  rename_i hrInt hHr
  split at h
  · simp at h
  rename_i up hUp
  injection h with h
  subst h
  exact ⟨by omega, rfl, hCO, hT, hRH, ⟨dInt, hrInt, hD, hHr, hUp⟩, rfl⟩

/-- C7 witness: the property instantiated at the well-formed example
line, whose parse succeeds. -/
theorem c7_measurement_fields_all_from_parse_witness :
    11 ≤ (lineFields "ABC123, -5, 21, 40, x, x, x, 1, 0, 30, 15\n").length ∧
    (⟨"ABC123", -5, 21, 40, 88215000000000, 7⟩ :
        AirQualityMeasurement).SensorSerialNumber =
      (lineFields "ABC123, -5, 21, 40, x, x, x, 1, 0, 30, 15\n").getD 0 "" ∧
    goParseInt
        ((lineFields "ABC123, -5, 21, 40, x, x, x, 1, 0, 30, 15\n").getD 1 "")
        32 =
      some (⟨"ABC123", -5, 21, 40, 88215000000000, 7⟩ :
        AirQualityMeasurement).COConcentrationPPB ∧
    goParseInt
        ((lineFields "ABC123, -5, 21, 40, x, x, x, 1, 0, 30, 15\n").getD 2 "")
        8 =
      some (⟨"ABC123", -5, 21, 40, 88215000000000, 7⟩ :
        AirQualityMeasurement).TemperatureC ∧
    goParseInt
        ((lineFields "ABC123, -5, 21, 40, x, x, x, 1, 0, 30, 15\n").getD 3 "")
        8 =
      some (⟨"ABC123", -5, 21, 40, 88215000000000, 7⟩ :
        AirQualityMeasurement).RelativeHumidity ∧
    (∃ days hours : Int,
      goParseInt
          ((lineFields "ABC123, -5, 21, 40, x, x, x, 1, 0, 30, 15\n").getD 7 "")
          16 =
        some days ∧
      goParseInt
          ((lineFields "ABC123, -5, 21, 40, x, x, x, 1, 0, 30, 15\n").getD 8 "")
          8 =
        some hours ∧
      parseDuration (toString (days * 24 + hours) ++ "h" ++
          (lineFields "ABC123, -5, 21, 40, x, x, x, 1, 0, 30, 15\n").getD 9 "" ++
          "m" ++
          goTrim
            ((lineFields "ABC123, -5, 21, 40, x, x, x, 1, 0, 30, 15\n").getD
              10 "")
            secondsCutset ++ "s") =
        some (⟨"ABC123", -5, 21, 40, 88215000000000, 7⟩ :
          AirQualityMeasurement).Uptime) ∧
    (⟨"ABC123", -5, 21, 40, 88215000000000, 7⟩ :
        AirQualityMeasurement).MeasurementTime = 7 :=
  c7_measurement_fields_all_from_parse
    "ABC123, -5, 21, 40, x, x, x, 1, 0, 30, 15\n" 7
    ⟨"ABC123", -5, 21, 40, 88215000000000, 7⟩ (by decide)

/-- C10: when the 2-byte stimulus write reports no error but zero bytes
written, `AnalyzeAirQuality` returns the error "failed to write to
IOTCO1000 serial device", and the result is the same for every schedule
of serial reads — no read is consulted at all. -/
theorem c10_zero_byte_write_errors_before_read (w : WriteResult)
    (hok : w.err = none) (hzero : w.bytesWritten = 0)
    (sched sched₂ : List ReadEvent) (mt : Int) :
    AnalyzeAirQuality w sched mt =
      AnalyzeOutcome.err "failed to write to IOTCO1000 serial device" ∧
    AnalyzeAirQuality w sched mt = AnalyzeAirQuality w sched₂ mt := by
  obtain ⟨bw, werr⟩ := w
  simp only at hok hzero
  subst hok
  subst hzero
  simp [AnalyzeAirQuality]

/-- C10 witness: the claim instantiated at a zero-byte, error-free write
result and two distinct read schedules. -/
theorem c10_zero_byte_write_errors_before_read_witness :
    AnalyzeAirQuality ⟨0, none⟩ [⟨['x'], none⟩] 0 =
      AnalyzeOutcome.err "failed to write to IOTCO1000 serial device" ∧
    AnalyzeAirQuality ⟨0, none⟩ [⟨['x'], none⟩] 0 =
      AnalyzeAirQuality ⟨0, none⟩ [] 0 :=
  c10_zero_byte_write_errors_before_read ⟨0, none⟩ rfl rfl [⟨['x'], none⟩] [] 0

/-- Writing a chunk no longer than the buffer leaves the buffer length
unchanged. -/
theorem writeChunk_length (buf chunk : List Char)
    (h : chunk.length ≤ buf.length) :
    (writeChunk buf chunk).length = buf.length := by
  simp [writeChunk]
  omega

/-- Invariant of the read loop: starting from a 256-byte buffer, with no
scheduled read errors and every chunk within the `io.Reader` bound, the
loop never returns an `ioError`, and any buffer it returns still has
exactly 256 bytes. -/
theorem readLoopAux_never_errors (sched : List ReadEvent) :
    ∀ (buf : List Char) (total : Nat), buf.length = 256 →
      (∀ e ∈ sched, e.err = none) →
      (∀ e ∈ sched, e.chunk.length ≤ 256) →
      (∀ msg, readLoopAux buf total sched ≠ ReadOutcome.ioError msg) ∧
      (∀ b, readLoopAux buf total sched = ReadOutcome.done b →
        b.length = 256) := by
  induction sched with
  | nil =>
    intro buf total _ _ _
    constructor
    · intro msg hcontra
      simp [readLoopAux] at hcontra
    · intro b hcontra
      simp [readLoopAux] at hcontra
  | cons e rest ih =>
    intro buf total hb herr hsz
    have he : e.err = none := herr e (List.mem_cons_self e rest)
    have hc : e.chunk.length ≤ 256 := hsz e (List.mem_cons_self e rest)
    have hb₁ : (writeChunk buf e.chunk).length = 256 := by
      rw [writeChunk_length buf e.chunk (by omega)]
      exact hb
    have hr₁ : ∀ e₂ ∈ rest, e₂.err = none :=
      fun e₂ hm => herr e₂ (List.mem_cons_of_mem e hm)
    have hr₂ : ∀ e₂ ∈ rest, e₂.chunk.length ≤ 256 :=
      fun e₂ hm => hsz e₂ (List.mem_cons_of_mem e hm)
    have ihn := ih (writeChunk buf e.chunk) (total + e.chunk.length) hb₁ hr₁ hr₂
    simp only [readLoopAux, he]
    split
    · exact ihn
    split
    · split
      · constructor
        · intro msg hcontra
          simp at hcontra
        · intro b hdone
          simp only [ReadOutcome.done.injEq] at hdone
          rw [← hdone]
          exact hb₁
      · exact ihn
    · constructor
      · intro msg hcontra
        simp at hcontra
      · intro b hcontra
        simp at hcontra

set_option maxRecDepth 10000

/-- C8 counterexample: the claim says that on a response exceeding the
256-byte buffer every index the loop accesses stays in bounds and the
loop merely corrupts the parsed fields.  On the 300-byte response
delivered as a full 256-byte read followed by a 44-byte read,
`totalBytesRead` reaches 300 and the terminator check accesses
`byteBuffer[299]` — out of bounds of the 256-byte buffer — so the loop
raises an unchecked index-out-of-range fault. -/
theorem c8_overflow_counterexample :
    (overflowSchedule.map (fun e => e.chunk.length)).sum = 300 ∧
    initialBuffer.length = 256 ∧
    readLoop overflowSchedule = ReadOutcome.panic := by
  decide

/-- C8 (amended): the frame-reading loop never converts an overlong
response into a returned error — absent a scheduled I/O error its only
outcomes are a buffer of exactly 256 bytes (so a longer response has
bytes missing or overwritten), an unchecked index-out-of-range fault, or
further blocking. -/
theorem c8_overflow_never_returns_error (sched : List ReadEvent)
    (herr : ∀ e ∈ sched, e.err = none)
    (hsz : ∀ e ∈ sched, e.chunk.length ≤ 256) :
    (∀ msg, readLoop sched ≠ ReadOutcome.ioError msg) ∧
    (∀ b, readLoop sched = ReadOutcome.done b → b.length = 256) :=
  readLoopAux_never_errors sched initialBuffer 0 (by decide) herr hsz

/-- C8 witness: the amended claim instantiated at the overflowing
two-read schedule. -/
theorem c8_overflow_never_returns_error_witness :
    (∀ msg, readLoop overflowSchedule ≠ ReadOutcome.ioError msg) ∧
    (∀ b, readLoop overflowSchedule = ReadOutcome.done b →
      b.length = 256) :=
  c8_overflow_never_returns_error overflowSchedule (by decide) (by decide)

/-- Log lines emitted over a concatenation split at the intermediate
`loggedAboutUptime` flag. -/
theorem submitRunCount_append (ns : String)
    (xs ys : List AirQualityMeasurement) :
    ∀ st, submitRunCount ns st (xs ++ ys) =
      submitRunCount ns st xs +
        submitRunCount ns (submitRunState ns st xs) ys := by
  induction xs with
  | nil =>
    intro st
    simp [submitRunCount, submitRunState]
  | cons a rest ih =>
    intro st
    simp [submitRunCount, submitRunState, ih, Nat.add_assoc]

/-- Warmed-up measurements never log, from any flag state. -/
theorem submitRunCount_warm (ns : String) :
    ∀ (ys : List AirQualityMeasurement) (st : Bool),
      (∀ m ∈ ys, warmUpDuration ≤ m.Uptime) → submitRunCount ns st ys = 0
  | [], _, _ => by simp [submitRunCount]
  | a :: rest, st, hy => by
    have hna : ¬a.Uptime < warmUpDuration :=
      not_lt.mpr (hy a (List.mem_cons_self a rest))
    simp only [submitRunCount, submitStep, hna, if_false]
    rw [submitRunCount_warm ns rest st
      (fun m hm => hy m (List.mem_cons_of_mem a hm))]

/-- Once the flag is set, further not-warmed-up measurements log nothing
and leave the flag set. -/
theorem submitRun_notwarm_flagged (ns : String) :
    ∀ (xs : List AirQualityMeasurement),
      (∀ m ∈ xs, m.Uptime < warmUpDuration) →
      submitRunCount ns true xs = 0 ∧ submitRunState ns true xs = true
  | [], _ => by simp [submitRunCount, submitRunState]
  | a :: rest, hx => by
    have ha : a.Uptime < warmUpDuration := hx a (List.mem_cons_self a rest)
    have hrec := submitRun_notwarm_flagged ns rest
      (fun m hm => hx m (List.mem_cons_of_mem a hm))
    simp [submitRunCount, submitRunState, submitStep, ha, hrec.1, hrec.2]

/-- C9: over any run consuming N ≥ 1 consecutive NotWarmedUp
measurements followed by M ≥ 1 consecutive WarmedUp measurements, the
canonical submission loop emits its state log line exactly once in
total — on the first not-warmed-up batch — and repeated batches in the
same state never re-log. -/
theorem c9_state_log_fires_once (ns : String)
    (xs ys : List AirQualityMeasurement) (hxne : xs ≠ []) (_hyne : ys ≠ [])
    (hx : ∀ m ∈ xs, m.Uptime < warmUpDuration)
    (hy : ∀ m ∈ ys, warmUpDuration ≤ m.Uptime) :
    submitRunCount ns false (xs ++ ys) = 1 := by
  obtain ⟨a, rest, rfl⟩ := List.exists_cons_of_ne_nil hxne
  have ha : a.Uptime < warmUpDuration := hx a (List.mem_cons_self a rest)
  have hrest : ∀ m ∈ rest, m.Uptime < warmUpDuration :=
    fun m hm => hx m (List.mem_cons_of_mem a hm)
  have hflag := submitRun_notwarm_flagged ns rest hrest
  rw [List.cons_append]
  simp only [submitRunCount, submitStep, ha, if_true, if_pos]
  rw [submitRunCount_append ns rest ys true, hflag.1, hflag.2,
    submitRunCount_warm ns ys true hy]
  simp

/-- C9 witness: two not-warmed-up batches followed by one warmed-up
batch log exactly one line. -/
theorem c9_state_log_fires_once_witness :
    submitRunCount "aq" false
      ([⟨"ABC123", 3, 21, 40, 0, 0⟩, ⟨"ABC123", 4, 21, 40, 1, 0⟩] ++
        [⟨"ABC123", 5, 21, 40, warmUpDuration, 0⟩]) = 1 :=
  c9_state_log_fires_once "aq"
    [⟨"ABC123", 3, 21, 40, 0, 0⟩, ⟨"ABC123", 4, 21, 40, 1, 0⟩]
    [⟨"ABC123", 5, 21, 40, warmUpDuration, 0⟩]
    (by decide) (by decide) (by decide) (by decide)

end Aqgo
